import Mathlib

/-!
# gusc::Jni : handle lifetime, member resolution and typed dispatch

A shallow embedding of `include/Jni/JObject.hpp`, `include/JClass.hpp` and
`include/Jni/Object.hpp`.

Modelling conventions

* JNI references and identifiers (`jobject`, `jclass`, `jmethodID`, `jfieldID`)
  are natural numbers; `0` is `nullptr`, so the C++ test `if (p)` is `p ≠ 0`.
* The managed runtime behind `JNIEnv*` is an oracle `JNIEnv`: one function per
  JNI entry point, giving the value the runtime answers with.
* Every JNI entry point the code goes through is logged, in program order, in
  the `calls` of a `Run`; a C++ `throw` is the outcome `thrown what`.
* A template that has no viable overload for a type argument (every candidate
  removed by `std::enable_if_t`) is `none`; a well-formed instantiation is
  `some run`.
-/

namespace Jni

/-! ## JNI vocabulary -/

abbrev jobject := Nat
abbrev jclass := Nat
abbrev jmethodID := Nat
abbrev jfieldID := Nat
/-- The raw bits of an argument or result passed through a JNI call. -/
abbrev jvalue := Nat

/-- The `jobjectRefType` enumeration of `jni.h`. -/
inductive jobjectRefType where
  | JNIInvalidRefType
  | JNILocalRefType
  | JNIGlobalRefType
  | JNIWeakGlobalRefType
  deriving DecidableEq, Repr

/-- The `<type>` infix of the JNI families `Call<type>Method`, `Get<type>Field`
and `Set<type>Field`. -/
inductive JniType where
  | Void | Boolean | Char | Byte | Short | Int | Long | Float | Double | Object
  deriving DecidableEq, Repr

/-- The native types the templates of `JObject` are instantiated with. -/
inductive CppType where
  | void | bool | char | int8_t | short | int | long | long_long | float | double
  | std_string | JString | JObject
  deriving DecidableEq, Repr

/-- One call through `JNIEnv`, with its arguments. -/
inductive JniCall where
  | GetObjectRefType (obj : jobject)
  | DeleteGlobalRef (obj : jobject)
  | DeleteWeakGlobalRef (obj : jobject)
  | DeleteLocalRef (obj : jobject)
  | GetMethodID (cls : jclass) (name signature : String)
  | GetStaticMethodID (cls : jclass) (name signature : String)
  | GetFieldID (cls : jclass) (name signature : String)
  | GetStaticFieldID (cls : jclass) (name signature : String)
  | FindClass (classPath : String)
  | GetObjectClass (obj : jobject)
  | NewObject (cls : jclass) (methodId : jmethodID) (args : List jvalue)
  | CallMethod (t : JniType) (obj : jobject) (methodId : jmethodID) (args : List jvalue)
  | GetField (t : JniType) (obj : jobject) (fieldId : jfieldID)
  | SetField (t : JniType) (obj : jobject) (fieldId : jfieldID) (value : jvalue)
  deriving DecidableEq, Repr

/-- The runtime's answers, one function per JNI entry point that returns a value. -/
structure JNIEnv where
  GetObjectRefType : jobject → jobjectRefType
  GetMethodID : jclass → String → String → jmethodID
  GetStaticMethodID : jclass → String → String → jmethodID
  GetFieldID : jclass → String → String → jfieldID
  GetStaticFieldID : jclass → String → String → jfieldID
  FindClass : String → jclass
  GetObjectClass : jobject → jclass
  NewObject : jclass → jmethodID → List jvalue → jobject
  CallMethod : JniType → jobject → jmethodID → List jvalue → jvalue
  GetField : JniType → jobject → jfieldID → jvalue

/-- How a C++ function ends: it returns a value or throws `std::runtime_error`. -/
inductive Outcome (α : Type) where
  | returned (value : α)
  | thrown (what : String)
  deriving DecidableEq, Repr

/-- The JNI calls a piece of code issued, in order, and how it ended. -/
structure Run (α : Type) where
  calls : List JniCall
  result : Outcome α
  deriving DecidableEq, Repr

namespace Run

/-- Return without touching the runtime. -/
def ret {α : Type} (a : α) : Run α := ⟨[], .returned a⟩

/-- Sequencing: a throw aborts what follows, the calls already issued stay. -/
def andThen {α β : Type} (m : Run α) (f : α → Run β) : Run β :=
  match m.result with
  | .thrown e => ⟨m.calls, .thrown e⟩
  | .returned a => ⟨m.calls ++ (f a).calls, (f a).result⟩

/-- Issue one JNI call whose answer is `answer`. -/
def jni {α : Type} (c : JniCall) (answer : α) : Run α := ⟨[c], .returned answer⟩

/-- The statement `throw std::runtime_error(what)`. -/
def raise {α : Type} (what : String) : Run α := ⟨[], .thrown what⟩

end Run

instance : Monad Run where
  pure := Run.ret
  bind := Run.andThen

/-- The calls of a trace that release a reference (any `Delete*Ref`). -/
def JniCall.isRelease : JniCall → Bool
  | .DeleteGlobalRef _ => true
  | .DeleteWeakGlobalRef _ => true
  | .DeleteLocalRef _ => true
  | _ => false

/-- The calls of a trace that release the reference `r`. -/
def JniCall.releases (r : jobject) : JniCall → Bool
  | .DeleteGlobalRef o => o == r
  | .DeleteWeakGlobalRef o => o == r
  | .DeleteLocalRef o => o == r
  | _ => false

/-- All release calls of a trace, in order. -/
def releaseCalls (cs : List JniCall) : List JniCall := cs.filter JniCall.isRelease

/-- The release calls of a trace that are on `r`, in order. -/
def releaseCallsOn (r : jobject) (cs : List JniCall) : List JniCall :=
  cs.filter (JniCall.releases r)

/-! ## `JObject` : the owning handle (JObject.hpp) -/

/-- The class `JObject`: its one data member `jobject obj { nullptr }`. -/
structure JObject where
  obj : jobject
  deriving DecidableEq, Repr

/-- The constructor `JObject(const jobject& initObject) : obj(initObject) {}`. -/
def JObject.ctor (initObject : jobject) : JObject := ⟨initObject⟩

/-- The destructor `~JObject()` (JObject.hpp:47-65). Each `if` condition is its
own `GetObjectRefType` query; the runtime answers both from `env`, the query
itself changing nothing. -/
def JObject.destructor (env : JNIEnv) (self : JObject) : Run Unit :=
  if self.obj ≠ 0 then do
    let kind ← Run.jni (.GetObjectRefType self.obj) (env.GetObjectRefType self.obj)
    if kind = .JNIGlobalRefType then
      Run.jni (.DeleteGlobalRef self.obj) ()
    else do
      let kind2 ← Run.jni (.GetObjectRefType self.obj) (env.GetObjectRefType self.obj)
      if kind2 = .JNIWeakGlobalRefType then
        Run.jni (.DeleteWeakGlobalRef self.obj) ()
      else
        Run.jni (.DeleteLocalRef self.obj) ()
  else
    pure ()

/-- The `JObject` instances alive in a program, by address: two names for one
object (as in `a = std::move(a)`) are one address. -/
abbrev Storage := Nat → JObject

/-- Assignment to the data member of the object at address `at_`. -/
def Storage.write (s : Storage) (at_ : Nat) (v : JObject) : Storage :=
  fun a => if a = at_ then v else s a

/-- The move constructor `JObject(JObject&& other) = default;` (JObject.hpp:24): the implicitly
defined move constructor initialises the new object's `obj` from `other.obj`;
moving a pointer copies it, and `other` is not written. The new object lives
at address `self`. -/
def JObject.moveCtor (s : Storage) (self other : Nat) : Storage :=
  s.write self ⟨(s other).obj⟩

/-- The move assignment `JObject& operator=(JObject&& other)` (JObject.hpp:25-46), on the objects at
addresses `self` and `other`. -/
def JObject.moveAssign (env : JNIEnv) (s : Storage) (self other : Nat) : Run Storage := do
  let obj := (s self).obj
  if obj ≠ 0 then do
    let kind ← Run.jni (.GetObjectRefType obj) (env.GetObjectRefType obj)
    if kind = .JNIGlobalRefType then
      Run.jni (.DeleteGlobalRef obj) ()
    else do
      let kind2 ← Run.jni (.GetObjectRefType obj) (env.GetObjectRefType obj)
      if kind2 = .JNIWeakGlobalRefType then
        Run.jni (.DeleteWeakGlobalRef obj) ()
      else
        Run.jni (.DeleteLocalRef obj) ()
  else
    pure ()
  let s1 := s.write self ⟨(s other).obj⟩
  let s2 := s1.write other ⟨0⟩
  pure s2

/-! ## `JEnv` and `JClass` : class lookup and member resolution (JClass.hpp) -/

/-- The class `JEnv`: a wrapper of the `JNIEnv*` it forwards to with `->`. -/
structure JEnv where
  env : JNIEnv

/-- The class `JClass`: `JEnv& env; jclass cls { nullptr };`. -/
structure JClass where
  env : JEnv
  cls : jclass

/-- Member `JClass::getStaticMethodId` (JClass.hpp:42-50). -/
def JClass.getStaticMethodId (self : JClass) (name signature : String) : Run jmethodID := do
  let methodId ← Run.jni (.GetStaticMethodID self.cls name signature)
    (self.env.env.GetStaticMethodID self.cls name signature)
  if methodId = 0 then
    Run.raise ("Can't find static method " ++ name ++ " with signature " ++ signature)
  else
    pure methodId

/-- Member `JClass::getMethodId` (JClass.hpp:52-60). -/
def JClass.getMethodId (self : JClass) (name signature : String) : Run jmethodID := do
  let methodId ← Run.jni (.GetMethodID self.cls name signature)
    (self.env.env.GetMethodID self.cls name signature)
  if methodId = 0 then
    Run.raise ("Can't find instance method " ++ name ++ " with signature " ++ signature)
  else
    pure methodId

/-- Member `JClass::getStaticFieldId` (JClass.hpp:62-70). -/
def JClass.getStaticFieldId (self : JClass) (name signature : String) : Run jfieldID := do
  let fieldId ← Run.jni (.GetStaticFieldID self.cls name signature)
    (self.env.env.GetStaticFieldID self.cls name signature)
  if fieldId = 0 then
    Run.raise ("Can't find static field " ++ name ++ " with signature " ++ signature)
  else
    pure fieldId

/-- Member `JClass::getFieldId` (JClass.hpp:72-80). -/
def JClass.getFieldId (self : JClass) (name signature : String) : Run jfieldID := do
  let fieldId ← Run.jni (.GetFieldID self.cls name signature)
    (self.env.env.GetFieldID self.cls name signature)
  if fieldId = 0 then
    Run.raise ("Can't find instance field " ++ name ++ " with signature " ++ signature)
  else
    pure fieldId

/-- Member `JClass::createObjectSign` (JClass.hpp:28-33); the argument pack is the
list `args`. -/
def JClass.createObjectSign (self : JClass) (signature : String) (args : List jvalue) :
    Run JObject := do
  let methodId ← self.getMethodId "<init>" signature
  let created ← Run.jni (.NewObject self.cls methodId args)
    (self.env.env.NewObject self.cls methodId args)
  pure (JObject.ctor created)

/-- Member `JEnv::getClass` (JClass.hpp:87-95). -/
def JEnv.getClass (self : JEnv) (classPath : String) : Run JClass := do
  let cls ← Run.jni (.FindClass classPath) (self.env.FindClass classPath)
  if cls = 0 then
    Run.raise ("Can't find " ++ classPath ++ " Java class")
  else
    pure ⟨self, cls⟩

/-- Member `JEnv::getObjectClass` (JClass.hpp:97-105). -/
def JEnv.getObjectClass (self : JEnv) (jniObject : jobject) : Run JClass := do
  let cls ← Run.jni (.GetObjectClass jniObject) (self.env.GetObjectClass jniObject)
  if cls = 0 then
    Run.raise "Class not found"
  else
    pure ⟨self, cls⟩

/-! ## Typed dispatch (JObject.hpp:99-144, 171-211, 216-508) -/

/-- What a dispatching template hands back to its caller. -/
inductive NativeValue where
  /-- Nothing: the template returns `void`. -/
  | void
  /-- The value `static_cast<T>(raw)` of the raw JNI result `raw`. -/
  | static_cast (T : CppType) (raw : jvalue)
  /-- The value `JString(static_cast<jstring>(ref))`. -/
  | JString (ref : jobject)
  /-- The value `JObject(ref)`. -/
  | JObject (o : Jni.JObject)
  deriving DecidableEq, Repr

/-- Member `JObject::invokeVoidMethod` (JObject.hpp:216-226), both overloads. -/
def JObject.invokeVoidMethod (self : JObject) (_env : JEnv) (methodId : jmethodID)
    (args : List jvalue) : Run Unit :=
  Run.jni (.CallMethod .Void self.obj methodId args) ()

/-- One typed call `static_cast<TReturn>(env->Call<t>Method(obj, methodId, args...))`. -/
def JObject.callCast (self : JObject) (env : JEnv) (TReturn : CppType) (t : JniType)
    (methodId : jmethodID) (args : List jvalue) : Run NativeValue := do
  let raw ← Run.jni (.CallMethod t self.obj methodId args)
    (env.env.CallMethod t self.obj methodId args)
  pure (.static_cast TReturn raw)

/-- The overload set named `invokeMethodReturn` (JObject.hpp:228-237): its one
member is enabled by `std::is_same_v<TReturn, bool>`. -/
def JObject.invokeMethodReturn (self : JObject) (TReturn : CppType) (env : JEnv)
    (methodId : jmethodID) (args : List jvalue) : Option (Run NativeValue) :=
  match TReturn with
  | .bool => some (self.callCast env TReturn .Boolean methodId args)
  | _ => none

/-- The protected overload set named `invokeMethod` with parameters
`(JEnv&, jmethodID, const TArgs&...)` (JObject.hpp:239-338). -/
def JObject.invokeMethodProtected (self : JObject) (TReturn : CppType) (env : JEnv)
    (methodId : jmethodID) (args : List jvalue) : Option (Run NativeValue) :=
  match TReturn with
  | .char => some (self.callCast env TReturn .Char methodId args)
  | .int8_t => some (self.callCast env TReturn .Byte methodId args)
  | .short => some (self.callCast env TReturn .Short methodId args)
  | .int => some (self.callCast env TReturn .Int methodId args)
  | .long => some (self.callCast env TReturn .Long methodId args)
  | .long_long => some (self.callCast env TReturn .Long methodId args)
  | .float => some (self.callCast env TReturn .Float methodId args)
  | .double => some (self.callCast env TReturn .Double methodId args)
  | .std_string => some (do
      let ref ← Run.jni (.CallMethod .Object self.obj methodId args)
        (env.env.CallMethod .Object self.obj methodId args)
      pure (.JString ref))
  | .JString => some (do
      let ref ← Run.jni (.CallMethod .Object self.obj methodId args)
        (env.env.CallMethod .Object self.obj methodId args)
      pure (.JString ref))
  | .JObject => some (do
      let ref ← Run.jni (.CallMethod .Object self.obj methodId args)
        (env.env.CallMethod .Object self.obj methodId args)
      pure (.JObject (Jni.JObject.ctor ref)))
  | _ => none

/-- Member `JObject::invokeMethodJni<TReturn>` (JObject.hpp:99-108 for `void`,
135-144 otherwise): the `void` overload forwards to `invokeVoidMethod`, the
other one to `invokeMethodReturn<TReturn>`. -/
def JObject.invokeMethodJni (self : JObject) (TReturn : CppType) (env : JEnv)
    (methodId : jmethodID) (args : List jvalue) : Option (Run NativeValue) :=
  if TReturn = .void then
    some (do
      self.invokeVoidMethod env methodId args
      pure .void)
  else
    self.invokeMethodReturn TReturn env methodId args

/-- One typed read `static_cast<T>(env->Get<t>Field(obj, fieldId))`. -/
def JObject.getCast (self : JObject) (env : JEnv) (T : CppType) (t : JniType)
    (fieldId : jfieldID) : Run NativeValue := do
  let raw ← Run.jni (.GetField t self.obj fieldId) (env.env.GetField t self.obj fieldId)
  pure (.static_cast T raw)

/-- The overload set `getFieldValue<T>` (JObject.hpp:340-427). -/
def JObject.getFieldValue (self : JObject) (T : CppType) (env : JEnv) (fieldId : jfieldID) :
    Option (Run NativeValue) :=
  match T with
  | .bool => some (self.getCast env T .Boolean fieldId)
  | .char => some (self.getCast env T .Char fieldId)
  | .int8_t => some (self.getCast env T .Byte fieldId)
  | .short => some (self.getCast env T .Short fieldId)
  | .int => some (self.getCast env T .Int fieldId)
  | .long => some (self.getCast env T .Long fieldId)
  | .long_long => some (self.getCast env T .Long fieldId)
  | .float => some (self.getCast env T .Float fieldId)
  | .double => some (self.getCast env T .Double fieldId)
  | _ => none

/-- Member `JObject::getFieldJni<T>` (JObject.hpp:171-175). -/
def JObject.getFieldJni (self : JObject) (T : CppType) (env : JEnv) (fieldId : jfieldID) :
    Option (Run NativeValue) :=
  self.getFieldValue T env fieldId

/-- The overload set `setFieldValue<T>` (JObject.hpp:429-508), the dispatch
`setFieldJni<T>` forwards to; `value` is the raw bits of
`static_cast<j...>(value)`. -/
def JObject.setFieldValue (self : JObject) (T : CppType) (_env : JEnv) (fieldId : jfieldID)
    (value : jvalue) : Option (Run Unit) :=
  match T with
  | .bool => some (Run.jni (.SetField .Boolean self.obj fieldId value) ())
  | .char => some (Run.jni (.SetField .Char self.obj fieldId value) ())
  | .int8_t => some (Run.jni (.SetField .Byte self.obj fieldId value) ())
  | .short => some (Run.jni (.SetField .Short self.obj fieldId value) ())
  | .int => some (Run.jni (.SetField .Int self.obj fieldId value) ())
  | .long => some (Run.jni (.SetField .Long self.obj fieldId value) ())
  | .long_long => some (Run.jni (.SetField .Long self.obj fieldId value) ())
  | .float => some (Run.jni (.SetField .Float self.obj fieldId value) ())
  | .double => some (Run.jni (.SetField .Double self.obj fieldId value) ())
  | _ => none

/-- The JNI family a return or value category of the typed-dispatch contract
belongs to: `string` and `object` both go through the `Object` family. -/
def CppType.category : CppType → JniType
  | .void => .Void
  | .bool => .Boolean
  | .char => .Char
  | .int8_t => .Byte
  | .short => .Short
  | .int => .Int
  | .long => .Long
  | .long_long => .Long
  | .float => .Float
  | .double => .Double
  | .std_string => .Object
  | .JString => .Object
  | .JObject => .Object

/-- The native types of the eight primitive categories (`long` and `long long`
are both of category long). -/
def CppType.isPrimitive : CppType → Bool
  | .bool | .char | .int8_t | .short | .int | .long | .long_long | .float | .double => true
  | _ => false

/-! ## `Object<ClassName>` : the user-facing wrapper (Object.hpp) -/

/-- The member templates of `JObjectS<ClassName>` that `Object` calls; the class
is declared outside these sources, so its behaviour is a parameter. -/
structure JObjectS where
  getField : CppType → String → Run NativeValue
  setField : CppType → String → NativeValue → Run Unit
  invokeMethod : CppType → String → List jvalue → Run NativeValue

/-- The member templates of a default-constructed `JClassS<ClassName>` that
`Object` calls; the class is declared outside these sources, so its behaviour
is a parameter. -/
structure JClassS where
  getField : CppType → String → Run NativeValue
  setField : CppType → String → NativeValue → Run Unit
  invokeMethod : CppType → String → List jvalue → Run NativeValue

/-- The class template `Object<ClassName>`: `JObjectS<ClassName> instance;`. -/
structure Object where
  inst : JObjectS

/-- Member `Object<ClassName>::get<T>` (Object.hpp:101-106): `return instance.getField<T>(...)`.
The result is `some v` when the function returns the value `v` to its caller. -/
def Object.get (self : Object) (T : CppType) (memberName : String) :
    Run (Option NativeValue) := do
  let v ← self.inst.getField T memberName
  pure (some v)

/-- Member `Object<ClassName>::set<T>` (Object.hpp:108-113). -/
def Object.set (self : Object) (T : CppType) (memberName : String) (memberValue : NativeValue) :
    Run Unit :=
  self.inst.setField T memberName memberValue

/-- Member `Object<ClassName>::invoke<TReturn>` (Object.hpp:115-120): the body is the
expression statement `instance.invokeMethod<TReturn>(...);` and nothing else,
so control reaches the closing brace without a `return`: no value is handed
to the caller (`none`). -/
def Object.invoke (self : Object) (TReturn : CppType) (methodName : String)
    (args : List jvalue) : Run (Option NativeValue) := do
  let _ ← self.inst.invokeMethod TReturn methodName args
  pure none

/-- Member `Object<ClassName>::getField<T>` (Object.hpp:122-128), on the local `cls`. -/
def Object.getField (cls : JClassS) (T : CppType) (memberName : String) :
    Run (Option NativeValue) := do
  let v ← cls.getField T memberName
  pure (some v)

/-- Member `Object<ClassName>::setField<T>` (Object.hpp:130-136), on the local `cls`. -/
def Object.setField (cls : JClassS) (T : CppType) (memberName : String)
    (memberValue : NativeValue) : Run Unit :=
  cls.setField T memberName memberValue

/-- Member `Object<ClassName>::invokeMethod<TReturn>` (Object.hpp:138-144), on the
local `cls`: as in `invoke`, the body has no `return`. -/
def Object.invokeMethod (cls : JClassS) (TReturn : CppType) (methodName : String)
    (args : List jvalue) : Run (Option NativeValue) := do
  let _ ← cls.invokeMethod TReturn methodName args
  pure none

/-! ## Concrete runtimes and objects used in the examples -/

/-- A runtime that reports every reference as local and answers every lookup
with a null identifier. -/
def envLocal : JNIEnv where
  GetObjectRefType := fun _ => .JNILocalRefType
  GetMethodID := fun _ _ _ => 0
  GetStaticMethodID := fun _ _ _ => 0
  GetFieldID := fun _ _ _ => 0
  GetStaticFieldID := fun _ _ _ => 0
  FindClass := fun _ => 0
  GetObjectClass := fun _ => 0
  NewObject := fun _ _ _ => 0
  CallMethod := fun _ _ _ _ => 0
  GetField := fun _ _ _ => 0

/-- A runtime that reports every reference as global, resolves every member to
identifier 5 and every class to 9, creates object 11 and answers every call
and field read with 42. -/
def envGlobal : JNIEnv where
  GetObjectRefType := fun _ => .JNIGlobalRefType
  GetMethodID := fun _ _ _ => 5
  GetStaticMethodID := fun _ _ _ => 5
  GetFieldID := fun _ _ _ => 5
  GetStaticFieldID := fun _ _ _ => 5
  FindClass := fun _ => 9
  GetObjectClass := fun _ => 9
  NewObject := fun _ _ _ => 11
  CallMethod := fun _ _ _ _ => 42
  GetField := fun _ _ _ => 42

/-- Storage with no bound handle. -/
def emptyStorage : Storage := fun _ => ⟨0⟩

/-- Two handles: the one at address 0 holds reference 7, the one at address 1
holds reference 8. -/
def twoHandles : Storage := (emptyStorage.write 0 ⟨7⟩).write 1 ⟨8⟩

/-- Two handles holding the same reference 7, as `JObject a(r); JObject b(r);`
builds them. -/
def aliasedHandles : Storage := (emptyStorage.write 0 ⟨7⟩).write 1 ⟨7⟩

/-- An instance whose `intValue` invocation yields 42 through `CallIntMethod`. -/
def instance42 : JObjectS where
  getField := fun T _ => ⟨[.GetField T.category 7 5], .returned (.static_cast T 42)⟩
  setField := fun _ _ _ => ⟨[], .returned ()⟩
  invokeMethod := fun T _ args =>
    ⟨[.CallMethod T.category 7 5 args], .returned (.static_cast T 42)⟩

/-- A class whose static invocations yield 42. -/
def class42 : JClassS where
  getField := fun T _ => ⟨[.GetField T.category 9 5], .returned (.static_cast T 42)⟩
  setField := fun _ _ _ => ⟨[], .returned ()⟩
  invokeMethod := fun T _ args =>
    ⟨[.CallMethod T.category 9 5 args], .returned (.static_cast T 42)⟩

/-- The value a run returned, if it returned. -/
def Outcome.value? {α : Type} : Outcome α → Option α
  | .returned a => some a
  | .thrown _ => none

/-- Whether a run ended in a throw. -/
def Outcome.isThrown {α : Type} : Outcome α → Bool
  | .returned _ => false
  | .thrown _ => true

/-! ## Descriptors and invocation by name (JObject.hpp:72-77, 110-133, 146-169) -/

namespace Private

/-- The compile-time text a signature function yields; the code reads its
member `str`. -/
structure Signature where
  str : String
  deriving DecidableEq, Repr

/-- Modelled from the spec: `Private::getJTypeSignature<T>()` of
`private/signature.hpp`, which is not among these sources. The mapping policy
of the type-signature engine: boolean is `Z`, byte `B`, char `C`, short `S`,
int `I`, long and long long `J`, float `F`, double `D`, no return value `V`,
a text value or runtime string wrapper `Ljava/lang/String;`, a generic
runtime-object wrapper `Ljava/lang/Object;`. -/
def getJTypeSignature : CppType → Signature
  | .bool => ⟨"Z"⟩
  | .int8_t => ⟨"B"⟩
  | .char => ⟨"C"⟩
  | .short => ⟨"S"⟩
  | .int => ⟨"I"⟩
  | .long => ⟨"J"⟩
  | .long_long => ⟨"J"⟩
  | .float => ⟨"F"⟩
  | .double => ⟨"D"⟩
  | .void => ⟨"V"⟩
  | .std_string => ⟨"Ljava/lang/String;"⟩
  | .JString => ⟨"Ljava/lang/String;"⟩
  | .JObject => ⟨"Ljava/lang/Object;"⟩

/-- Modelled from the spec: the descriptors of an argument pack, one after the
other in the order of the pack (part of `private/signature.hpp`, which is not
among these sources). -/
def concatArguments : List CppType → String
  | [] => ""
  | T :: rest => (getJTypeSignature T).str ++ concatArguments rest

/-- Modelled from the spec: `Private::getMethodSignature<TReturn, TArgs...>()`
of `private/signature.hpp`, which is not among these sources. A method
descriptor is the ordered sequence of the argument descriptors inside
parentheses, followed by the return descriptor. -/
def getMethodSignature (TReturn : CppType) (TArgs : List CppType) : Signature :=
  ⟨"(" ++ concatArguments TArgs ++ ")" ++ (getJTypeSignature TReturn).str⟩

end Private

/-- Modelled from the spec: `JObject::getMethodIdJni`, declared at
JObject.hpp:72 and defined nowhere in these sources. Instance-member
resolution first derives the class of the handle and delegates to class-level
resolution, as the out-of-class `JObject::getMethodId(name, signature)` of
JClass.hpp:107-112 does. -/
def JObject.getMethodIdJni (self : JObject) (env : JEnv) (name signature : String) :
    Run jmethodID := do
  let cls ← env.getObjectClass self.obj
  cls.getMethodId name signature

/-- Member `JObject::invokeMethodSign<TReturn>` (JObject.hpp:110-121 for `void`,
146-157 otherwise): resolve `(name, signature)` with `getMethodIdJni`, then
`invokeMethodJni<TReturn>` with the identifier. The instantiation exists only
when that of `invokeMethodJni<TReturn>` does, which depends on `TReturn` alone
(probed here with the null identifier). -/
def JObject.invokeMethodSign (self : JObject) (TReturn : CppType) (env : JEnv)
    (name signature : String) (args : List jvalue) : Option (Run NativeValue) :=
  match self.invokeMethodJni TReturn env 0 args with
  | none => none
  | some _ => some (do
      let methodId ← self.getMethodIdJni env name signature
      match self.invokeMethodJni TReturn env methodId args with
      | some run => run
      | none => pure .void)

/-- Member `JObject::invokeMethod<TReturn, TArgs...>` (JObject.hpp:123-133 for
`void`, 159-169 otherwise): `sign` is the compile-time method signature of
`(TArgs...) -> TReturn`, and `sign.str` goes to `invokeMethodSign<TReturn>`. -/
def JObject.invokeMethod (self : JObject) (TReturn : CppType) (TArgs : List CppType)
    (env : JEnv) (name : String) (args : List jvalue) : Option (Run NativeValue) :=
  let sign := Private.getMethodSignature TReturn TArgs
  self.invokeMethodSign TReturn env name sign.str args

/-! ## Lemmas on runs -/

@[simp] theorem Run.bind_eq_andThen {α β : Type} (m : Run α) (f : α → Run β) :
    (m >>= f) = Run.andThen m f := rfl

@[simp] theorem Run.pure_eq_ret {α : Type} (a : α) : (pure a : Run α) = Run.ret a := rfl

@[simp] theorem Run.andThen_jni {α β : Type} (c : JniCall) (a : α) (f : α → Run β) :
    Run.andThen (Run.jni c a) f = ⟨c :: (f a).calls, (f a).result⟩ := rfl

@[simp] theorem Run.andThen_ret {α β : Type} (a : α) (f : α → Run β) :
    Run.andThen (Run.ret a) f = f a := rfl

@[simp] theorem Run.jni_calls {α : Type} (c : JniCall) (a : α) : (Run.jni c a).calls = [c] := rfl

@[simp] theorem Run.jni_result {α : Type} (c : JniCall) (a : α) :
    (Run.jni c a).result = .returned a := rfl

@[simp] theorem Run.ret_calls {α : Type} (a : α) : (Run.ret a).calls = [] := rfl

@[simp] theorem Run.ret_result {α : Type} (a : α) : (Run.ret a).result = .returned a := rfl

@[simp] theorem Run.raise_calls {α : Type} (w : String) : (Run.raise w : Run α).calls = [] := rfl

@[simp] theorem Run.raise_result {α : Type} (w : String) :
    (Run.raise w : Run α).result = .thrown w := rfl

/-- The release part shared by `~JObject()` and `operator=(JObject&&)`: what
the destructor logs for a non-null reference. -/
theorem destructor_calls_of_ne_zero (env : JNIEnv) (self : JObject) (h : self.obj ≠ 0) :
    (JObject.destructor env self).calls =
      if env.GetObjectRefType self.obj = .JNIGlobalRefType then
        [.GetObjectRefType self.obj, .DeleteGlobalRef self.obj]
      else if env.GetObjectRefType self.obj = .JNIWeakGlobalRefType then
        [.GetObjectRefType self.obj, .GetObjectRefType self.obj, .DeleteWeakGlobalRef self.obj]
      else
        [.GetObjectRefType self.obj, .GetObjectRefType self.obj, .DeleteLocalRef self.obj] := by
  unfold JObject.destructor
  simp only [h, ne_eq, not_false_eq_true, if_true]
  by_cases hg : env.GetObjectRefType self.obj = .JNIGlobalRefType
  · simp [hg]
  · by_cases hw : env.GetObjectRefType self.obj = .JNIWeakGlobalRefType
    · simp [hw]
    · simp [hg, hw]

/-- What `operator=(JObject&&)` logs: nothing for a null destination, the
destructor's release of the destination's old reference otherwise. -/
theorem moveAssign_calls (env : JNIEnv) (s : Storage) (self other : Nat) :
    (JObject.moveAssign env s self other).calls = (JObject.destructor env (s self)).calls := by
  unfold JObject.moveAssign JObject.destructor
  by_cases h0 : (s self).obj = 0
  · simp [h0]
  · by_cases hg : env.GetObjectRefType (s self).obj = .JNIGlobalRefType
    · simp [h0, hg]
    · by_cases hw : env.GetObjectRefType (s self).obj = .JNIWeakGlobalRefType
      · simp [h0, hw]
      · simp [h0, hg, hw]

/-- The storage `operator=(JObject&&)` leaves: it always returns. -/
theorem moveAssign_result (env : JNIEnv) (s : Storage) (self other : Nat) :
    (JObject.moveAssign env s self other).result =
      .returned ((s.write self ⟨(s other).obj⟩).write other ⟨0⟩) := by
  unfold JObject.moveAssign
  by_cases h0 : (s self).obj = 0
  · simp [h0]
  · by_cases hg : env.GetObjectRefType (s self).obj = .JNIGlobalRefType
    · simp [h0, hg]
    · by_cases hw : env.GetObjectRefType (s self).obj = .JNIWeakGlobalRefType
      · simp [h0, hw]
      · simp [h0, hg, hw]

/-- The release calls of `~JObject()` on a non-null reference, by reported kind. -/
theorem destructor_releaseCalls (env : JNIEnv) (self : JObject) (h : self.obj ≠ 0) :
    (env.GetObjectRefType self.obj = .JNIGlobalRefType →
      releaseCalls (JObject.destructor env self).calls = [.DeleteGlobalRef self.obj]) ∧
    (env.GetObjectRefType self.obj = .JNIWeakGlobalRefType →
      releaseCalls (JObject.destructor env self).calls = [.DeleteWeakGlobalRef self.obj]) ∧
    (env.GetObjectRefType self.obj ≠ .JNIGlobalRefType →
      env.GetObjectRefType self.obj ≠ .JNIWeakGlobalRefType →
      releaseCalls (JObject.destructor env self).calls = [.DeleteLocalRef self.obj]) := by
  rw [destructor_calls_of_ne_zero env self h]
  refine ⟨?_, ?_, ?_⟩
  · intro hg
    simp [hg, releaseCalls, JniCall.isRelease]
  · intro hw
    simp [hw, releaseCalls, JniCall.isRelease]
  · intro hg hw
    simp [hg, hw, releaseCalls, JniCall.isRelease]

/-- The destructor never throws. -/
theorem destructor_result (env : JNIEnv) (self : JObject) :
    (JObject.destructor env self).result = .returned () := by
  unfold JObject.destructor
  by_cases h : self.obj = 0
  · simp [h]
  · by_cases hg : env.GetObjectRefType self.obj = .JNIGlobalRefType
    · simp [h, hg]
    · by_cases hw : env.GetObjectRefType self.obj = .JNIWeakGlobalRefType
      · simp [h, hw]
      · simp [h, hg, hw]

/-! ## Lifetime of `JObject` -/

/-- C1: destroying a `JObject` that holds a non-null reference `r` issues
exactly one release call, on `r`, and no other release call; the call is
`DeleteGlobalRef` when the runtime reports `r` as global, `DeleteWeakGlobalRef`
when it reports it as weak global, and `DeleteLocalRef` for every other
reported kind; the destructor returns. -/
theorem destructor_releases_once_by_kind (env : JNIEnv) (self : JObject)
    (h : self.obj ≠ 0) :
    (env.GetObjectRefType self.obj = .JNIGlobalRefType →
      releaseCalls (JObject.destructor env self).calls = [.DeleteGlobalRef self.obj]) ∧
    (env.GetObjectRefType self.obj = .JNIWeakGlobalRefType →
      releaseCalls (JObject.destructor env self).calls = [.DeleteWeakGlobalRef self.obj]) ∧
    (env.GetObjectRefType self.obj ≠ .JNIGlobalRefType →
      env.GetObjectRefType self.obj ≠ .JNIWeakGlobalRefType →
      releaseCalls (JObject.destructor env self).calls = [.DeleteLocalRef self.obj]) ∧
    (JObject.destructor env self).result = .returned () :=
  ⟨(destructor_releaseCalls env self h).1, (destructor_releaseCalls env self h).2.1,
   (destructor_releaseCalls env self h).2.2, destructor_result env self⟩

/-- Witness of C1: a handle on reference 7, reported as local, is released by
one `DeleteLocalRef 7`. -/
theorem destructor_releases_once_by_kind_witness :
    (JObject.mk 7).obj ≠ 0 ∧
    releaseCalls (JObject.destructor envLocal ⟨7⟩).calls = [.DeleteLocalRef 7] :=
  ⟨by decide,
   (destructor_releases_once_by_kind envLocal ⟨7⟩ (by decide)).2.2.1 (by decide) (by decide)⟩

/-- C2, evaluated on the code: move-constructing a handle at address 2 from the
handle at address 0, which holds reference 7, leaves the source holding 7 (not
null); destroying the new handle and then the source releases 7 twice. -/
theorem moveCtor_source_still_bound :
    ((JObject.moveCtor twoHandles 2 0) 2).obj = 7 ∧
    ((JObject.moveCtor twoHandles 2 0) 0).obj = 7 ∧
    releaseCalls (JObject.destructor envLocal ((JObject.moveCtor twoHandles 2 0) 0)).calls
      = [.DeleteLocalRef 7] ∧
    releaseCallsOn 7
      ((JObject.destructor envLocal ((JObject.moveCtor twoHandles 2 0) 2)).calls ++
       (JObject.destructor envLocal ((JObject.moveCtor twoHandles 2 0) 0)).calls)
      = [.DeleteLocalRef 7, .DeleteLocalRef 7] := by
  decide

/-- C3 as stated fails: with two distinct handles that hold the same reference
7, `b = std::move(a)` releases 7, the reference `a` held. -/
theorem moveAssign_aliased_releases_source :
    (0 : Nat) ≠ 1 ∧
    (aliasedHandles 0).obj = 7 ∧ (aliasedHandles 1).obj = 7 ∧
    releaseCallsOn (aliasedHandles 0).obj
      (JObject.moveAssign envLocal aliasedHandles 1 0).calls = [.DeleteLocalRef 7] ∧
    ¬ (releaseCallsOn (aliasedHandles 0).obj
      (JObject.moveAssign envLocal aliasedHandles 1 0).calls = []) := by
  decide

/-- C3, amended: for two distinct handles `a` (holding `r`) and `b` (holding
`q`), `b = std::move(a)` returns, leaves `b` holding `r` and `a` holding null;
it issues no release call on `r` when `q` is null or differs from `r`; when `q`
is non-null its only release call is the one on `q` that matches the kind the
runtime reports for `q`; when `q` is null it issues no runtime call at all. -/
theorem moveAssign_distinct (env : JNIEnv) (s : Storage) (a b : Nat) (hab : a ≠ b) :
    (∃ s', (JObject.moveAssign env s b a).result = .returned s' ∧
      (s' b).obj = (s a).obj ∧ (s' a).obj = 0) ∧
    ((s b).obj = 0 ∨ (s b).obj ≠ (s a).obj →
      releaseCallsOn (s a).obj (JObject.moveAssign env s b a).calls = []) ∧
    ((s b).obj ≠ 0 →
      (env.GetObjectRefType (s b).obj = .JNIGlobalRefType →
        releaseCalls (JObject.moveAssign env s b a).calls = [.DeleteGlobalRef (s b).obj]) ∧
      (env.GetObjectRefType (s b).obj = .JNIWeakGlobalRefType →
        releaseCalls (JObject.moveAssign env s b a).calls
          = [.DeleteWeakGlobalRef (s b).obj]) ∧
      (env.GetObjectRefType (s b).obj ≠ .JNIGlobalRefType →
        env.GetObjectRefType (s b).obj ≠ .JNIWeakGlobalRefType →
        releaseCalls (JObject.moveAssign env s b a).calls = [.DeleteLocalRef (s b).obj])) ∧
    ((s b).obj = 0 → (JObject.moveAssign env s b a).calls = []) := by
  have hnull : (s b).obj = 0 → (JObject.destructor env (s b)).calls = [] := by
    intro h0
    simp [JObject.destructor, h0]
  refine ⟨⟨_, moveAssign_result env s b a, ?_, ?_⟩, ?_, ?_, ?_⟩
  · simp [Storage.write, Ne.symm hab]
  · simp [Storage.write]
  · rw [moveAssign_calls]
    rintro (h0 | hne)
    · simp [hnull h0, releaseCallsOn]
    · by_cases h0 : (s b).obj = 0
      · simp [hnull h0, releaseCallsOn]
      · rw [destructor_calls_of_ne_zero env (s b) h0]
        split_ifs <;> simp [releaseCallsOn, JniCall.releases, hne]
  · intro h0
    rw [moveAssign_calls]
    exact destructor_releaseCalls env (s b) h0
  · intro h0
    rw [moveAssign_calls]
    exact hnull h0

/-- Witness of amended C3: with handle 0 on reference 7 and handle 1 on
reference 8, moving handle 0 into handle 1 releases 8 once and never 7. -/
theorem moveAssign_distinct_witness :
    (0 : Nat) ≠ 1 ∧
    releaseCallsOn (twoHandles 0).obj (JObject.moveAssign envLocal twoHandles 1 0).calls = [] ∧
    releaseCalls (JObject.moveAssign envLocal twoHandles 1 0).calls = [.DeleteLocalRef 8] :=
  ⟨by decide,
   (moveAssign_distinct envLocal twoHandles 0 1 (by decide)).2.1 (Or.inr (by decide)),
   ((moveAssign_distinct envLocal twoHandles 0 1 (by decide)).2.2.1 (by decide)).2.2
     (by decide) (by decide)⟩

/-! ## Member resolution and class lookup -/

/-- The message of a resolver: a prefix, the name, `" with signature "`, the
signature. Both the name and the signature are infixes of it. -/
theorem name_signature_infix (pre name signature : String) :
    name.data <:+: (pre ++ name ++ " with signature " ++ signature).data ∧
    signature.data <:+: (pre ++ name ++ " with signature " ++ signature).data := by
  constructor
  · exact ⟨pre.data, (" with signature " ++ signature).data, by simp [String.data_append]⟩
  · exact ⟨(pre ++ name ++ " with signature ").data, [], by simp [String.data_append]⟩

/-- C4: each of the four resolvers of `JClass` throws if and only if its runtime
lookup on the handle's class answers null, otherwise returns exactly the
identifier the runtime answered, and in both cases issues exactly one runtime
call: that lookup, with the given name and signature. -/
theorem resolvers_throw_iff_lookup_empty (self : JClass) (name signature : String) :
    (((self.getMethodId name signature).result.isThrown = true ↔
        self.env.env.GetMethodID self.cls name signature = 0) ∧
      (self.env.env.GetMethodID self.cls name signature ≠ 0 →
        (self.getMethodId name signature).result
          = .returned (self.env.env.GetMethodID self.cls name signature)) ∧
      (self.getMethodId name signature).calls = [.GetMethodID self.cls name signature]) ∧
    (((self.getStaticMethodId name signature).result.isThrown = true ↔
        self.env.env.GetStaticMethodID self.cls name signature = 0) ∧
      (self.env.env.GetStaticMethodID self.cls name signature ≠ 0 →
        (self.getStaticMethodId name signature).result
          = .returned (self.env.env.GetStaticMethodID self.cls name signature)) ∧
      (self.getStaticMethodId name signature).calls
        = [.GetStaticMethodID self.cls name signature]) ∧
    (((self.getFieldId name signature).result.isThrown = true ↔
        self.env.env.GetFieldID self.cls name signature = 0) ∧
      (self.env.env.GetFieldID self.cls name signature ≠ 0 →
        (self.getFieldId name signature).result
          = .returned (self.env.env.GetFieldID self.cls name signature)) ∧
      (self.getFieldId name signature).calls = [.GetFieldID self.cls name signature]) ∧
    (((self.getStaticFieldId name signature).result.isThrown = true ↔
        self.env.env.GetStaticFieldID self.cls name signature = 0) ∧
      (self.env.env.GetStaticFieldID self.cls name signature ≠ 0 →
        (self.getStaticFieldId name signature).result
          = .returned (self.env.env.GetStaticFieldID self.cls name signature)) ∧
      (self.getStaticFieldId name signature).calls
        = [.GetStaticFieldID self.cls name signature]) := by
  refine ⟨?_, ?_, ?_, ?_⟩
  · unfold JClass.getMethodId
    by_cases h : self.env.env.GetMethodID self.cls name signature = 0
    · simp [h, Outcome.isThrown]
    · simp [h, Outcome.isThrown]
  · unfold JClass.getStaticMethodId
    by_cases h : self.env.env.GetStaticMethodID self.cls name signature = 0
    · simp [h, Outcome.isThrown]
    · simp [h, Outcome.isThrown]
  · unfold JClass.getFieldId
    by_cases h : self.env.env.GetFieldID self.cls name signature = 0
    · simp [h, Outcome.isThrown]
    · simp [h, Outcome.isThrown]
  · unfold JClass.getStaticFieldId
    by_cases h : self.env.env.GetStaticFieldID self.cls name signature = 0
    · simp [h, Outcome.isThrown]
    · simp [h, Outcome.isThrown]

/-- Both sides of C4 occur: against a runtime that answers null `getMethodId`
throws after one lookup, against one that answers 5 it returns 5 after one
lookup. -/
theorem resolvers_throw_iff_lookup_empty_witness :
    (JClass.getMethodId ⟨⟨envLocal⟩, 9⟩ "intValue" "()I").result.isThrown = true ∧
    (JClass.getMethodId ⟨⟨envLocal⟩, 9⟩ "intValue" "()I").calls
      = [.GetMethodID 9 "intValue" "()I"] ∧
    (JClass.getMethodId ⟨⟨envGlobal⟩, 9⟩ "intValue" "()I").result = .returned 5 :=
  ⟨(resolvers_throw_iff_lookup_empty ⟨⟨envLocal⟩, 9⟩ "intValue" "()I").1.1.2 (by decide),
   (resolvers_throw_iff_lookup_empty ⟨⟨envLocal⟩, 9⟩ "intValue" "()I").1.2.2,
   (resolvers_throw_iff_lookup_empty ⟨⟨envGlobal⟩, 9⟩ "intValue" "()I").1.2.1 (by decide)⟩

/-- C5: whenever one of the four resolvers of `JClass` throws for
`(name, signature)`, the message of the error contains `name` and contains
`signature`, each as an unmodified contiguous run of characters. -/
theorem resolver_error_carries_name_and_signature (self : JClass)
    (name signature what : String) :
    ((self.getMethodId name signature).result = .thrown what →
      name.data <:+: what.data ∧ signature.data <:+: what.data) ∧
    ((self.getStaticMethodId name signature).result = .thrown what →
      name.data <:+: what.data ∧ signature.data <:+: what.data) ∧
    ((self.getFieldId name signature).result = .thrown what →
      name.data <:+: what.data ∧ signature.data <:+: what.data) ∧
    ((self.getStaticFieldId name signature).result = .thrown what →
      name.data <:+: what.data ∧ signature.data <:+: what.data) := by
  refine ⟨?_, ?_, ?_, ?_⟩
  · unfold JClass.getMethodId
    by_cases h : self.env.env.GetMethodID self.cls name signature = 0
    · simp only [h, Run.bind_eq_andThen, Run.andThen_jni, if_true, Run.raise_result,
        Outcome.thrown.injEq]
      rintro rfl
      exact name_signature_infix _ name signature
    · simp [h]
  · unfold JClass.getStaticMethodId
    by_cases h : self.env.env.GetStaticMethodID self.cls name signature = 0
    · simp only [h, Run.bind_eq_andThen, Run.andThen_jni, if_true, Run.raise_result,
        Outcome.thrown.injEq]
      rintro rfl
      exact name_signature_infix _ name signature
    · simp [h]
  · unfold JClass.getFieldId
    by_cases h : self.env.env.GetFieldID self.cls name signature = 0
    · simp only [h, Run.bind_eq_andThen, Run.andThen_jni, if_true, Run.raise_result,
        Outcome.thrown.injEq]
      rintro rfl
      exact name_signature_infix _ name signature
    · simp [h]
  · unfold JClass.getStaticFieldId
    by_cases h : self.env.env.GetStaticFieldID self.cls name signature = 0
    · simp only [h, Run.bind_eq_andThen, Run.andThen_jni, if_true, Run.raise_result,
        Outcome.thrown.injEq]
      rintro rfl
      exact name_signature_infix _ name signature
    · simp [h]

/-- Witness of C5: the failed lookup of `intValue` with `()I` throws a message
that contains both. -/
theorem resolver_error_carries_name_and_signature_witness :
    (JClass.getMethodId ⟨⟨envLocal⟩, 9⟩ "intValue" "()I").result
      = .thrown "Can't find instance method intValue with signature ()I" ∧
    ("intValue".data <:+: "Can't find instance method intValue with signature ()I".data ∧
     "()I".data <:+: "Can't find instance method intValue with signature ()I".data) :=
  ⟨by decide,
   (resolver_error_carries_name_and_signature ⟨⟨envLocal⟩, 9⟩ "intValue" "()I"
     "Can't find instance method intValue with signature ()I").1 (by decide)⟩

/-- C6: `JEnv::getClass(classPath)` throws if and only if `FindClass` answers
null, the message then contains `classPath`, and otherwise the returned
`JClass` wraps exactly the class the runtime answered;
`JEnv::getObjectClass(obj)` throws if and only if `GetObjectClass` answers null
and otherwise wraps exactly the class the runtime answered. -/
theorem class_lookup_throws_iff_empty (self : JEnv) (classPath : String) (obj : jobject) :
    ((self.getClass classPath).result.isThrown = true ↔ self.env.FindClass classPath = 0) ∧
    (∀ what, (self.getClass classPath).result = .thrown what →
      classPath.data <:+: what.data) ∧
    (self.env.FindClass classPath ≠ 0 →
      (self.getClass classPath).result = .returned ⟨self, self.env.FindClass classPath⟩) ∧
    ((self.getObjectClass obj).result.isThrown = true ↔ self.env.GetObjectClass obj = 0) ∧
    (self.env.GetObjectClass obj ≠ 0 →
      (self.getObjectClass obj).result
        = .returned ⟨self, self.env.GetObjectClass obj⟩) := by
  refine ⟨?_, ?_, ?_, ?_, ?_⟩
  · unfold JEnv.getClass
    by_cases h : self.env.FindClass classPath = 0
    · simp [h, Outcome.isThrown]
    · simp [h, Outcome.isThrown]
  · intro what
    unfold JEnv.getClass
    by_cases h : self.env.FindClass classPath = 0
    · simp only [h, Run.bind_eq_andThen, Run.andThen_jni, if_true, Run.raise_result,
        Outcome.thrown.injEq]
      rintro rfl
      exact ⟨"Can't find ".data, " Java class".data, by simp [String.data_append]⟩
    · simp [h]
  · intro h
    unfold JEnv.getClass
    simp [h]
  · unfold JEnv.getObjectClass
    by_cases h : self.env.GetObjectClass obj = 0
    · simp [h, Outcome.isThrown]
    · simp [h, Outcome.isThrown]
  · intro h
    unfold JEnv.getObjectClass
    simp [h]

/-- Both sides of C6 occur: `getClass` throws against a runtime that finds no
class, and the class it returns against one that answers 9 is 9. -/
theorem class_lookup_throws_iff_empty_witness :
    (JEnv.getClass ⟨envLocal⟩ "java/lang/Integer").result.isThrown = true ∧
    (JEnv.getClass ⟨envGlobal⟩ "java/lang/Integer").result = .returned ⟨⟨envGlobal⟩, 9⟩ :=
  ⟨(class_lookup_throws_iff_empty ⟨envLocal⟩ "java/lang/Integer" 7).1.2 (by decide),
   (class_lookup_throws_iff_empty ⟨envGlobal⟩ "java/lang/Integer" 7).2.2.1 (by decide)⟩

/-- C7: `JClass::createObjectSign(signature, args...)` first looks up the member
`<init>` with exactly the given signature on the handle's class; when that
resolution fails it throws and the lookup is its only runtime call (`NewObject`
is never called); when it succeeds it then calls `NewObject` exactly once, with
the class, the resolved identifier and the arguments in order, and returns a
`JObject` that holds exactly the reference `NewObject` answered. -/
theorem createObjectSign_resolves_then_constructs (self : JClass) (signature : String)
    (args : List jvalue) :
    (self.env.env.GetMethodID self.cls "<init>" signature = 0 →
      (self.createObjectSign signature args).result.isThrown = true ∧
      (self.createObjectSign signature args).result
        = .thrown ("Can't find instance method " ++ "<init>" ++ " with signature "
            ++ signature) ∧
      (self.createObjectSign signature args).calls
        = [.GetMethodID self.cls "<init>" signature]) ∧
    (self.env.env.GetMethodID self.cls "<init>" signature ≠ 0 →
      (self.createObjectSign signature args).calls
        = [.GetMethodID self.cls "<init>" signature,
           .NewObject self.cls (self.env.env.GetMethodID self.cls "<init>" signature) args] ∧
      (self.createObjectSign signature args).result
        = .returned ⟨self.env.env.NewObject self.cls
            (self.env.env.GetMethodID self.cls "<init>" signature) args⟩) := by
  unfold JClass.createObjectSign JClass.getMethodId
  constructor
  · intro h
    simp [h, Run.andThen, Outcome.isThrown]
  · intro h
    simp [h, Run.andThen, JObject.ctor]

/-- Both sides of C7 occur: for `(I)V` with argument 42, a runtime without the
constructor makes `createObjectSign` throw after the single lookup, and a
runtime that resolves it to 5 and creates object 11 gives a handle on 11. -/
theorem createObjectSign_resolves_then_constructs_witness :
    (JClass.createObjectSign ⟨⟨envLocal⟩, 9⟩ "(I)V" [42]).calls
      = [.GetMethodID 9 "<init>" "(I)V"] ∧
    (JClass.createObjectSign ⟨⟨envGlobal⟩, 9⟩ "(I)V" [42]).calls
      = [.GetMethodID 9 "<init>" "(I)V", .NewObject 9 5 [42]] ∧
    (JClass.createObjectSign ⟨⟨envGlobal⟩, 9⟩ "(I)V" [42]).result = .returned ⟨11⟩ :=
  ⟨((createObjectSign_resolves_then_constructs ⟨⟨envLocal⟩, 9⟩ "(I)V" [42]).1
      (by decide)).2.2,
   ((createObjectSign_resolves_then_constructs ⟨⟨envGlobal⟩, 9⟩ "(I)V" [42]).2
      (by decide)).1,
   ((createObjectSign_resolves_then_constructs ⟨⟨envGlobal⟩, 9⟩ "(I)V" [42]).2
      (by decide)).2⟩

/-! ## Typed dispatch -/

/-- C8, evaluated on the code: `invokeMethodJni<int>` forwards to
`invokeMethodReturn<int>`, which has no overload for `int`, so no low-level
call is selected, although the overload issuing `CallIntMethod` exists under
the name `invokeMethod`; the same holds for char, byte, short, long, float,
double, string and object. Only `void` and `bool` dispatch. -/
theorem invokeMethodJni_int_selects_no_call :
    JObject.invokeMethodJni ⟨7⟩ .int ⟨envGlobal⟩ 5 [] = none ∧
    JObject.invokeMethodReturn ⟨7⟩ .int ⟨envGlobal⟩ 5 [] = none ∧
    JObject.invokeMethodProtected ⟨7⟩ .int ⟨envGlobal⟩ 5 []
      = some ⟨[.CallMethod .Int 7 5 []], .returned (.static_cast .int 42)⟩ ∧
    ([CppType.char, .int8_t, .short, .int, .long, .long_long, .float, .double,
      .std_string, .JString, .JObject].all
        fun T => (JObject.invokeMethodJni ⟨7⟩ T ⟨envGlobal⟩ 5 []).isNone
          && (JObject.invokeMethodProtected ⟨7⟩ T ⟨envGlobal⟩ 5 []).isSome) = true ∧
    JObject.invokeMethodJni ⟨7⟩ .bool ⟨envGlobal⟩ 5 []
      = some ⟨[.CallMethod .Boolean 7 5 []], .returned (.static_cast .bool 42)⟩ ∧
    JObject.invokeMethodJni ⟨7⟩ .void ⟨envGlobal⟩ 5 []
      = some ⟨[.CallMethod .Void 7 5 []], .returned .void⟩ := by
  decide

/-- C9 as stated fails: no overload of `getFieldValue` accepts a string or an
object type, so `getFieldJni` selects no `GetObjectField` call for them. -/
theorem getFieldJni_object_selects_no_call :
    JObject.getFieldJni ⟨7⟩ .JObject ⟨envGlobal⟩ 5 = none ∧
    JObject.getFieldJni ⟨7⟩ .std_string ⟨envGlobal⟩ 5 = none ∧
    JObject.getFieldJni ⟨7⟩ .JString ⟨envGlobal⟩ 5 = none := by
  decide

/-- C9, amended: for every native type `T` of the eight primitive categories
(boolean, char, byte, short, int, long, float, double), `getFieldJni<T>` issues
exactly the `Get<Category>Field` call of `T`'s category and the write dispatch
`setFieldValue<T>` issues exactly the `Set<Category>Field` call of the same
category, on the held reference with the given field id; every other type
(string and object among them) is supported by neither; a type is supported
for read if and only if the write dispatch supports it. -/
theorem field_dispatch_primitive_symmetric (self : JObject) (env : JEnv)
    (fieldId : jfieldID) (value : jvalue) (T : CppType) (hT : T.isPrimitive = true) :
    self.getFieldJni T env fieldId
      = some ⟨[.GetField T.category self.obj fieldId],
          .returned (.static_cast T (env.env.GetField T.category self.obj fieldId))⟩ ∧
    self.setFieldValue T env fieldId value
      = some ⟨[.SetField T.category self.obj fieldId value], .returned ()⟩ ∧
    (∀ U : CppType, U.isPrimitive = false →
      self.getFieldJni U env fieldId = none ∧ self.setFieldValue U env fieldId value = none) ∧
    (∀ U : CppType, (self.getFieldJni U env fieldId).isSome = true ↔
      (self.setFieldValue U env fieldId value).isSome = true) := by
  refine ⟨?_, ?_, ?_, ?_⟩
  · cases T <;> simp [CppType.isPrimitive] at hT <;> rfl
  · cases T <;> simp [CppType.isPrimitive] at hT <;> rfl
  · intro U hU
    cases U <;> simp [CppType.isPrimitive] at hU <;> exact ⟨rfl, rfl⟩
  · intro U
    cases U <;> simp [JObject.getFieldJni, JObject.getFieldValue, JObject.setFieldValue]

/-- Witness of amended C9: for `int`, reading field 5 of object 7 issues
`GetIntField` and writing 3 to it issues `SetIntField`. -/
theorem field_dispatch_primitive_symmetric_witness :
    CppType.int.isPrimitive = true ∧
    JObject.getFieldJni ⟨7⟩ .int ⟨envGlobal⟩ 5
      = some ⟨[.GetField .Int 7 5], .returned (.static_cast .int 42)⟩ ∧
    JObject.setFieldValue ⟨7⟩ .int ⟨envGlobal⟩ 5 3
      = some ⟨[.SetField .Int 7 5 3], .returned ()⟩ :=
  ⟨by decide,
   (field_dispatch_primitive_symmetric ⟨7⟩ ⟨envGlobal⟩ 5 3 .int (by decide)).1,
   (field_dispatch_primitive_symmetric ⟨7⟩ ⟨envGlobal⟩ 5 3 .int (by decide)).2.1⟩

/-! ## The wrapper `Object<ClassName>` -/

/-- C10, evaluated on the code: on an instance whose `intValue` invocation
yields 42, `invoke<int>("intValue")` performs the invocation and hands no value
to its caller, and so does the static `invokeMethod<int>`; `get<int>` does
return the value read. For no instance, type, name and arguments does `invoke`
or `invokeMethod` return a value. -/
theorem Object_invoke_returns_no_value :
    (instance42.invokeMethod .int "intValue" []).result = .returned (.static_cast .int 42) ∧
    (Object.invoke ⟨instance42⟩ .int "intValue" []).calls = [.CallMethod .Int 7 5 []] ∧
    (Object.invoke ⟨instance42⟩ .int "intValue" []).result = .returned none ∧
    (Object.invokeMethod class42 .int "parseInt" [3]).result = .returned none ∧
    (Object.get ⟨instance42⟩ .int "value").result
      = .returned (some (.static_cast .int 42)) ∧
    (∀ (self : Object) (T : CppType) (name : String) (args : List jvalue) (v : NativeValue),
      (Object.invoke self T name args).result ≠ .returned (some v)) ∧
    (∀ (cls : JClassS) (T : CppType) (name : String) (args : List jvalue) (v : NativeValue),
      (Object.invokeMethod cls T name args).result ≠ .returned (some v)) := by
  refine ⟨by decide, by decide, by decide, by decide, by decide, ?_, ?_⟩
  · intro self T name args v
    unfold Object.invoke
    simp only [Run.bind_eq_andThen, Run.pure_eq_ret, Run.andThen]
    cases (self.inst.invokeMethod T name args).result <;> simp
  · intro cls T name args v
    unfold Object.invokeMethod
    simp only [Run.bind_eq_andThen, Run.pure_eq_ret, Run.andThen]
    cases (cls.invokeMethod T name args).result <;> simp

/-! ## Self-move -/

/-- C12: for a `JObject` that holds a non-null reference `r`, the self
move-assignment `a = std::move(a)` issues exactly one release call, on `r`,
matching the kind the runtime reports for `r`; it returns and leaves the handle
holding null, so that destroying the handle afterwards issues no call at all,
and over the assignment and the destruction together `r` is released exactly
once. -/
theorem self_moveAssign_releases_once (env : JNIEnv) (s : Storage) (a : Nat)
    (h : (s a).obj ≠ 0) :
    (env.GetObjectRefType (s a).obj = .JNIGlobalRefType →
      releaseCalls (JObject.moveAssign env s a a).calls = [.DeleteGlobalRef (s a).obj]) ∧
    (env.GetObjectRefType (s a).obj = .JNIWeakGlobalRefType →
      releaseCalls (JObject.moveAssign env s a a).calls
        = [.DeleteWeakGlobalRef (s a).obj]) ∧
    (env.GetObjectRefType (s a).obj ≠ .JNIGlobalRefType →
      env.GetObjectRefType (s a).obj ≠ .JNIWeakGlobalRefType →
      releaseCalls (JObject.moveAssign env s a a).calls = [.DeleteLocalRef (s a).obj]) ∧
    (releaseCallsOn (s a).obj (JObject.moveAssign env s a a).calls).length = 1 ∧
    (∃ s', (JObject.moveAssign env s a a).result = .returned s' ∧
      (s' a).obj = 0 ∧
      (JObject.destructor env (s' a)).calls = [] ∧
      (releaseCalls ((JObject.moveAssign env s a a).calls ++
        (JObject.destructor env (s' a)).calls)).length = 1 ∧
      (releaseCallsOn (s a).obj ((JObject.moveAssign env s a a).calls ++
        (JObject.destructor env (s' a)).calls)).length = 1) := by
  have hnull : (JObject.destructor env
      (((s.write a ⟨(s a).obj⟩).write a ⟨0⟩) a)).calls = [] := by
    simp [JObject.destructor, Storage.write]
  have hon : (releaseCallsOn (s a).obj (JObject.destructor env (s a)).calls).length = 1 := by
    rw [destructor_calls_of_ne_zero env (s a) h]
    split_ifs <;> simp [releaseCallsOn, JniCall.releases]
  have hall : (releaseCalls (JObject.destructor env (s a)).calls).length = 1 := by
    rw [destructor_calls_of_ne_zero env (s a) h]
    split_ifs <;> simp [releaseCalls, JniCall.isRelease]
  rw [moveAssign_calls]
  refine ⟨(destructor_releaseCalls env (s a) h).1, (destructor_releaseCalls env (s a) h).2.1,
    (destructor_releaseCalls env (s a) h).2.2, hon,
    ⟨_, moveAssign_result env s a a, ?_, hnull, ?_, ?_⟩⟩
  · simp [Storage.write]
  · rw [hnull, List.append_nil]
    exact hall
  · rw [hnull, List.append_nil]
    exact hon

/-- Witness of C12: the handle at address 0 holds reference 7, reported as
local; moving it into itself releases 7 by one `DeleteLocalRef 7`. -/
theorem self_moveAssign_releases_once_witness :
    (twoHandles 0).obj ≠ 0 ∧
    releaseCalls (JObject.moveAssign envLocal twoHandles 0 0).calls = [.DeleteLocalRef 7] ∧
    (releaseCallsOn (twoHandles 0).obj
      (JObject.moveAssign envLocal twoHandles 0 0).calls).length = 1 :=
  ⟨by decide,
   (self_moveAssign_releases_once envLocal twoHandles 0 (by decide)).2.2.1
     (by decide) (by decide),
   (self_moveAssign_releases_once envLocal twoHandles 0 (by decide)).2.2.2.1⟩

/-! ## Method descriptors -/

/-- Appending a list of strings to an accumulator, the fold `String.join` is. -/
theorem foldl_append_eq (l : List String) (acc : String) :
    l.foldl (fun r x => r ++ x) acc = acc ++ l.foldl (fun r x => r ++ x) "" := by
  induction l generalizing acc with
  | nil => simp
  | cons x xs ih =>
    simp only [List.foldl_cons]
    rw [ih (acc ++ x), ih ("" ++ x)]
    simp [String.append_assoc]

/-- The descriptors of an argument pack are the join of the descriptors of its
members, in order. -/
theorem concatArguments_eq_join (TArgs : List CppType) :
    Private.concatArguments TArgs
      = String.join (TArgs.map fun T => (Private.getJTypeSignature T).str) := by
  induction TArgs with
  | nil => rfl
  | cons T rest ih =>
    simp only [Private.concatArguments, List.map_cons, String.join, List.foldl_cons]
    rw [foldl_append_eq, ih]
    simp [String.join]

/-- Whether `invokeMethodJni<TReturn>` exists does not depend on the identifier
it is called with. -/
theorem invokeMethodJni_isSome_iff (self : JObject) (TReturn : CppType) (env : JEnv)
    (methodId : jmethodID) (args : List jvalue) :
    (self.invokeMethodJni TReturn env methodId args).isSome = true ↔
      (TReturn = .void ∨ TReturn = .bool) := by
  cases TReturn <;> simp [JObject.invokeMethodJni, JObject.invokeMethodReturn]

/-- C11: the descriptor `JObject::invokeMethod<TReturn, TArgs...>` hands to
`invokeMethodSign`, and through it to member resolution, is an opening
parenthesis, the descriptors of the argument types in order, a closing
parenthesis and the descriptor of the return type; it depends on the types
alone. For the return types that dispatch (`void` and `bool`) the run resolves
the handle's class and then issues `GetMethodID` with the given name and exactly
that descriptor. `int` maps to `I`, `void` to `V`, a text value to
`Ljava/lang/String;`; `(long, float) -> double` gives `(JF)D` and
`(int, boolean) -> void` gives `(IZ)V`. -/
theorem invokeMethod_passes_method_descriptor (self : JObject) (env : JEnv)
    (TReturn : CppType) (TArgs : List CppType) (name : String) (args : List jvalue) :
    (Private.getMethodSignature TReturn TArgs).str
      = "(" ++ String.join (TArgs.map fun T => (Private.getJTypeSignature T).str) ++ ")"
          ++ (Private.getJTypeSignature TReturn).str ∧
    self.invokeMethod TReturn TArgs env name args
      = self.invokeMethodSign TReturn env name
          ("(" ++ String.join (TArgs.map fun T => (Private.getJTypeSignature T).str) ++ ")"
            ++ (Private.getJTypeSignature TReturn).str) args ∧
    (TReturn = .void ∨ TReturn = .bool → env.env.GetObjectClass self.obj ≠ 0 →
      ∃ run, self.invokeMethod TReturn TArgs env name args = some run ∧
        run.calls.take 2
          = [.GetObjectClass self.obj,
             .GetMethodID (env.env.GetObjectClass self.obj) name
               ("(" ++ String.join (TArgs.map fun T => (Private.getJTypeSignature T).str)
                 ++ ")" ++ (Private.getJTypeSignature TReturn).str)]) ∧
    (Private.getJTypeSignature .int).str = "I" ∧
    (Private.getJTypeSignature .void).str = "V" ∧
    (Private.getJTypeSignature .std_string).str = "Ljava/lang/String;" ∧
    (Private.getMethodSignature .double [.long, .float]).str = "(JF)D" ∧
    (Private.getMethodSignature .void [.int, .bool]).str = "(IZ)V" ∧
    JObject.invokeMethod ⟨7⟩ .void [.int, .bool] ⟨envGlobal⟩ "set" [3, 1]
      = some ⟨[.GetObjectClass 7, .GetMethodID 9 "set" "(IZ)V", .CallMethod .Void 7 5 [3, 1]],
          .returned .void⟩ := by
  have hsig : (Private.getMethodSignature TReturn TArgs).str
      = "(" ++ String.join (TArgs.map fun T => (Private.getJTypeSignature T).str) ++ ")"
          ++ (Private.getJTypeSignature TReturn).str := by
    simp only [Private.getMethodSignature, concatArguments_eq_join]
  refine ⟨hsig, ?_, ?_, by decide, by decide, by decide, by decide, by decide, by decide⟩
  · simp only [JObject.invokeMethod, hsig]
  · intro hT hcls
    simp only [JObject.invokeMethod, hsig]
    generalize "(" ++ String.join (TArgs.map fun T => (Private.getJTypeSignature T).str) ++ ")"
          ++ (Private.getJTypeSignature TReturn).str = d
    by_cases hm : env.env.GetMethodID (env.env.GetObjectClass self.obj) name d = 0
    · rcases hT with rfl | rfl <;>
        simp [JObject.invokeMethodSign, JObject.invokeMethodJni, JObject.invokeMethodReturn,
          JObject.getMethodIdJni, JEnv.getObjectClass, JClass.getMethodId, Run.andThen, hcls, hm]
    · rcases hT with rfl | rfl <;>
        simp [JObject.invokeMethodSign, JObject.invokeMethodJni, JObject.invokeMethodReturn,
          JObject.getMethodIdJni, JEnv.getObjectClass, JClass.getMethodId, Run.andThen, hcls, hm,
          JObject.invokeVoidMethod, JObject.callCast]

end Jni
